import Mathlib

/-!
Shallow embedding of the loan-comparison engine (the `simulateLoan` function
and its helpers from the repository's main component file).

Numbers: the source uses JavaScript doubles; the embedding uses `ℚ` so that
the arithmetic structure of the algorithm (which performs only `+ - * / min
max pow` on already-rational inputs) is exact.  Month counters and tenure
fields are `ℕ` (the UI floors and clamps them to non-negative integers).
-/

namespace HomeLoanComparison

/-- `StepUpConfig.mode` is the string tag `"none" | "monthly_add" | "yearly_percent"`
in the source. -/
inductive StepUpMode where
  | none
  | monthly_add
  | yearly_percent
deriving DecidableEq

structure StepUpConfig where
  mode : StepUpMode
  value : ℚ
deriving DecidableEq

structure PrepayConfig where
  oneTimeAmount : ℚ
  oneTimeMonth : ℕ
  recurringAnnualAmount : ℚ
deriving DecidableEq

structure ODConfig where
  enabled : Bool
  startSavings : ℚ
  monthlyIncrement : ℚ
  partFromSavingsEveryYYears : ℕ
  partAmountEachTime : ℚ
deriving DecidableEq

structure LoanInput where
  label : String
  principal : ℚ
  years : ℕ
  monthsExtra : ℕ
  annualRate : ℚ
  stepUp : StepUpConfig
  prepay : PrepayConfig
  od : ODConfig
deriving DecidableEq

structure MonthRow where
  monthIndex : ℕ
  year : ℕ
  openingPrincipal : ℚ
  savingsBalance : ℚ
  effectivePrincipal : ℚ
  rateMonthly : ℚ
  interest : ℚ
  scheduledEmi : ℚ
  principalPaid : ℚ
  prepayment : ℚ
  closingPrincipal : ℚ
  closingSavings : ℚ
deriving DecidableEq

structure SimulationResult where
  rows : List MonthRow
  totalInterest : ℚ
  totalPaid : ℚ
  months : ℕ
  /-- the source builds the string note from these two numbers -/
  payoffYearsPart : ℕ
  payoffRemMonths : ℕ
deriving DecidableEq

/-- `emi(P, r, N)`: closed-form annuity payment.
Source: `if (P <= 0 || N <= 0) return 0; if (r === 0) return P / N;
const f = Math.pow(1 + r, N); return (P * r * f) / (f - 1);` -/
def emi (P r : ℚ) (N : ℕ) : ℚ :=
  if P ≤ 0 ∨ N ≤ 0 then 0
  else if r = 0 then P / (N : ℚ)
  else (P * r * (1 + r) ^ N) / ((1 + r) ^ N - 1)

/-- The `applyStepUp` closure.  It reads and (in `yearly_percent` mode at a
year boundary) writes the captured `schedEmi` variable, and returns a value.
The first component is the return value; the second is the captured
`schedEmi` variable as the closure body alone leaves it.  (The orchestrator
then executes `schedEmi = applyStepUp(m)`, i.e. it overwrites the variable
with the first component — see `stepMonth`.) -/
def applyStepUp (su : StepUpConfig) (month : ℕ) (schedEmi : ℚ) : ℚ × ℚ :=
  if su.mode = StepUpMode.monthly_add ∧ su.value > 0 then
    (schedEmi + su.value, schedEmi)
  else if su.mode = StepUpMode.yearly_percent ∧ su.value > 0 then
    let s := if month > 0 ∧ month % 12 = 0 then schedEmi * (1 + su.value / 100)
             else schedEmi
    (s, s)
  else (schedEmi, schedEmi)

/-- The `computePrepay` closure: one-time rule plus recurring-annual rule,
independent and additive. -/
def computePrepay (pp : PrepayConfig) (month : ℕ) : ℚ :=
  (if pp.oneTimeAmount > 0 ∧ month = pp.oneTimeMonth then pp.oneTimeAmount else 0) +
  (if pp.recurringAnnualAmount > 0 ∧ month > 0 ∧ month % 12 = 0 then
     pp.recurringAnnualAmount else 0)

/-- `Math.max(0, (od.partFromSavingsEveryYYears || 0) * 12)`; on `ℕ` the
clamp is a no-op. -/
def fromSavingsIntervalMonths (od : ODConfig) : ℕ :=
  od.partFromSavingsEveryYYears * 12

/-- Loop-carried state of the simulation: the mutable variables
`bal`, `savings`, `schedEmi`, `m` of `simulateLoan`. -/
structure SimState where
  bal : ℚ
  savings : ℚ
  schedEmi : ℚ
  m : ℕ

/-- One iteration of the `while` loop body of `simulateLoan`: produces the
pushed `MonthRow` and the state for the next iteration. -/
def stepMonth (inp : LoanInput) (st : SimState) : MonthRow × SimState :=
  let rMonthlyBase := inp.annualRate / 1200
  let m := st.m
  -- line `schedEmi = applyStepUp(m);`
  let schedEmi := (applyStepUp inp.stepUp m st.schedEmi).1
  let savings1 :=
    if inp.od.enabled = true ∧ inp.od.monthlyIncrement ≠ 0 then
      max 0 (st.savings + inp.od.monthlyIncrement)
    else st.savings
  let effectivePrincipal :=
    max 0 (st.bal - (if inp.od.enabled = true then savings1 else 0))
  let interest := effectivePrincipal * rMonthlyBase
  let extraPrepay0 := computePrepay inp.prepay m
  let interval := fromSavingsIntervalMonths inp.od
  let transferable := min inp.od.partAmountEachTime savings1
  let doTransfer :=
    inp.od.enabled = true ∧ interval > 0 ∧ m > 0 ∧ m % interval = 0 ∧
      transferable > 0
  let extraPrepay := if doTransfer then extraPrepay0 + transferable else extraPrepay0
  let savings2 := if doTransfer then savings1 - transferable else savings1
  let dueThisMonth := min schedEmi (st.bal + interest)
  let principalPaid := max 0 (dueThisMonth - interest)
  let capPrepay := min extraPrepay (max 0 (st.bal - principalPaid))
  let closingPrincipal := max 0 (st.bal - principalPaid - capPrepay)
  (⟨m, m / 12 + 1, st.bal, savings2, effectivePrincipal, rMonthlyBase, interest,
    dueThisMonth, principalPaid, capPrepay, closingPrincipal, savings2⟩,
   ⟨closingPrincipal, savings2, schedEmi, m + 1⟩)

/-- The `while (bal > 0 && m < 1200)` loop, with fuel for structural
termination.  `simulateLoan` supplies fuel `1200` with `m = 0`, so the fuel
never runs out before the source's `m < 1200` test fails. -/
def simLoop (inp : LoanInput) : SimState → ℕ → List MonthRow
  | _, 0 => []
  | st, fuel + 1 =>
    if 0 < st.bal ∧ st.m < 1200 then
      let rs := stepMonth inp st
      rs.1 :: simLoop inp rs.2 fuel
    else []

/-- `simulateLoan`.  The source accumulates `totalInterest` in the loop and
computes `totalPaid` by a `reduce` over the rows; both equal the
corresponding sums over the emitted rows, and the final `months` is the loop
counter `m`, which (starting from 0, incremented once per pushed row) equals
the number of rows. -/
def simulateLoan (input : LoanInput) : SimulationResult :=
  let P0 := input.principal
  let totalTenureMonths := input.years * 12 + input.monthsExtra
  let rMonthlyBase := input.annualRate / 1200
  let baseEmi := emi P0 rMonthlyBase totalTenureMonths
  let st0 : SimState :=
    ⟨P0, (if input.od.enabled = true then input.od.startSavings else 0), baseEmi, 0⟩
  let rows := simLoop input st0 1200
  let months := rows.length
  { rows := rows
    totalInterest := (rows.map (fun r => r.interest)).sum
    totalPaid := (rows.map (fun r => r.scheduledEmi + r.prepayment)).sum
    months := months
    payoffYearsPart := months / 12
    payoffRemMonths := months % 12 }

/-! ### Concrete configurations used by witnesses and counterexamples -/

/-- A configuration with everything off and zero amounts. -/
def inertInput : LoanInput :=
  { label := "T"
    principal := 0
    years := 0
    monthsExtra := 0
    annualRate := 0
    stepUp := ⟨StepUpMode.none, 0⟩
    prepay := ⟨0, 0, 0⟩
    od := ⟨false, 0, 0, 0, 0⟩ }

/-- P = 1200, zero rate, 12-month tenure (base payment 100), monthly_add 10. -/
def cfgMonthlyAdd : LoanInput :=
  { inertInput with
      principal := 1200
      years := 1
      stepUp := ⟨StepUpMode.monthly_add, 10⟩ }

/-- P = 1000, zero rate, zero tenure: degenerate tenure with positive principal. -/
def cfgZeroTenure : LoanInput :=
  { inertInput with principal := 1000 }

/-- P = 100, zero rate, 1-month tenure, one-time prepayment 50 at month 5
(after payoff). -/
def cfgLatePrepay : LoanInput :=
  { inertInput with
      principal := 100
      monthsExtra := 1
      prepay := ⟨50, 5, 0⟩ }

/-- P = 200, zero rate, 2-month tenure: pays off in exactly two months. -/
def cfgTwoMonths : LoanInput :=
  { inertInput with
      principal := 200
      monthsExtra := 2 }

/-- P = 1000, 12% annual rate, zero tenure: base payment 0 ≤ first interest. -/
def cfgCapped : LoanInput :=
  { inertInput with
      principal := 1000
      annualRate := 12 }

/-- P = 100, zero rate, 2-month tenure. -/
def cfgZeroRate : LoanInput :=
  { inertInput with
      principal := 100
      monthsExtra := 2 }

/-- P = 100, zero rate, 1-month tenure, offset enabled with start savings 50. -/
def cfgOffset : LoanInput :=
  { inertInput with
      principal := 100
      monthsExtra := 1
      od := ⟨true, 50, 0, 0, 0⟩ }

/-- P = 100, zero rate, 1-month tenure, one-time prepayment 500 at month 0. -/
def cfgBigPrepay : LoanInput :=
  { inertInput with
      principal := 100
      monthsExtra := 1
      prepay := ⟨500, 0, 0⟩ }

/-- P = 1000, zero rate, zero tenure (scheduled payment 0 ≤ first interest 0),
with a one-time prepayment of the full principal at month 0. -/
def cfgCappedPrepaid : LoanInput :=
  { inertInput with
      principal := 1000
      prepay := ⟨1000, 0, 0⟩ }

/-- P = 2400, zero rate, 200-year tenure (2400 months): converging but slower
than the 1200-month safety cap. -/
def cfgLong : LoanInput :=
  { inertInput with
      principal := 2400
      years := 200 }

/-- P = 100, zero rate, 3-month tenure, one-time prepayment 20 at month 1. -/
def cfgMidPrepay : LoanInput :=
  { inertInput with
      principal := 100
      monthsExtra := 3
      prepay := ⟨20, 1, 0⟩ }

/-! ### Basic unfolding lemmas -/

lemma simLoop_succ (inp : LoanInput) (st : SimState) (n : ℕ) :
    simLoop inp st (n + 1) =
      if 0 < st.bal ∧ st.m < 1200 then
        (stepMonth inp st).1 :: simLoop inp (stepMonth inp st).2 n
      else [] := rfl

lemma stepMonth_fst_monthIndex (inp : LoanInput) (st : SimState) :
    ((stepMonth inp st).1).monthIndex = st.m := rfl

lemma stepMonth_fst_opening (inp : LoanInput) (st : SimState) :
    ((stepMonth inp st).1).openingPrincipal = st.bal := rfl

lemma stepMonth_snd_bal (inp : LoanInput) (st : SimState) :
    ((stepMonth inp st).2).bal = ((stepMonth inp st).1).closingPrincipal := rfl

lemma stepMonth_snd_m (inp : LoanInput) (st : SimState) :
    ((stepMonth inp st).2).m = st.m + 1 := rfl

lemma stepMonth_savings_eq (inp : LoanInput) (st : SimState) :
    ((stepMonth inp st).1).savingsBalance = ((stepMonth inp st).1).closingSavings := rfl

lemma stepMonth_interest_eq (inp : LoanInput) (st : SimState) :
    ((stepMonth inp st).1).interest =
      ((stepMonth inp st).1).effectivePrincipal * ((stepMonth inp st).1).rateMonthly := rfl

lemma stepMonth_closing_nonneg (inp : LoanInput) (st : SimState) :
    0 ≤ ((stepMonth inp st).1).closingPrincipal :=
  le_max_left 0 _

lemma simulateLoan_rows (inp : LoanInput) :
    (simulateLoan inp).rows =
      simLoop inp
        ⟨inp.principal, (if inp.od.enabled = true then inp.od.startSavings else 0),
         emi inp.principal (inp.annualRate / 1200) (inp.years * 12 + inp.monthsExtra), 0⟩
        1200 := rfl

lemma simulateLoan_months (inp : LoanInput) :
    (simulateLoan inp).months = (simulateLoan inp).rows.length := rfl

lemma simulateLoan_totalInterest (inp : LoanInput) :
    (simulateLoan inp).totalInterest =
      ((simulateLoan inp).rows.map (fun r => r.interest)).sum := rfl

lemma simulateLoan_totalPaid (inp : LoanInput) :
    (simulateLoan inp).totalPaid =
      ((simulateLoan inp).rows.map (fun r => r.scheduledEmi + r.prepayment)).sum := rfl

/-! ### Generic loop lemmas -/

lemma simLoop_ne_nil_bal_pos {inp : LoanInput} {st : SimState} {fuel : ℕ}
    (h : simLoop inp st fuel ≠ []) : 0 < st.bal := by
  cases fuel with
  | zero => simp [simLoop] at h
  | succ n =>
    by_cases hc : 0 < st.bal ∧ st.m < 1200
    · exact hc.1
    · rw [simLoop_succ, if_neg hc] at h
      exact absurd rfl h

lemma simLoop_length_le (inp : LoanInput) :
    ∀ (fuel : ℕ) (st : SimState), (simLoop inp st fuel).length ≤ fuel := by
  intro fuel
  induction fuel with
  | zero => intro st; simp [simLoop]
  | succ n ih =>
    intro st
    rw [simLoop_succ]
    by_cases hc : 0 < st.bal ∧ st.m < 1200
    · rw [if_pos hc]
      simpa using Nat.succ_le_succ (ih _)
    · rw [if_neg hc]; simp

/-- All rows emitted by the loop satisfy `P`, given a state invariant `I`
preserved by the loop body that forces each pushed row to satisfy `P`. -/
lemma simLoop_forall (inp : LoanInput) (I : SimState → Prop) (P : MonthRow → Prop)
    (hstep : ∀ st, I st → 0 < st.bal → st.m < 1200 →
      P (stepMonth inp st).1 ∧ I (stepMonth inp st).2) :
    ∀ (fuel : ℕ) (st : SimState), I st → ∀ r ∈ simLoop inp st fuel, P r := by
  intro fuel
  induction fuel with
  | zero => intro st _ r hr; simp [simLoop] at hr
  | succ n ih =>
    intro st hI r hr
    rw [simLoop_succ] at hr
    by_cases hc : 0 < st.bal ∧ st.m < 1200
    · rw [if_pos hc] at hr
      rcases List.mem_cons.mp hr with h | h
      · exact h ▸ (hstep st hI hc.1 hc.2).1
      · exact ih _ (hstep st hI hc.1 hc.2).2 r h
    · rw [if_neg hc] at hr
      simp at hr

/-- If the invariant keeps the balance positive, the loop consumes all its
fuel (the `m < 1200` test cannot fail first when `st.m + fuel ≤ 1200`). -/
lemma simLoop_length_eq (inp : LoanInput) (I : SimState → Prop)
    (hstep : ∀ st, I st → 0 < st.bal → st.m < 1200 → I (stepMonth inp st).2)
    (hbal : ∀ st, I st → 0 < st.bal) :
    ∀ (fuel : ℕ) (st : SimState), I st → st.m + fuel ≤ 1200 →
      (simLoop inp st fuel).length = fuel := by
  intro fuel
  induction fuel with
  | zero => intro st _ _; simp [simLoop]
  | succ n ih =>
    intro st hI hm
    have hb := hbal st hI
    have hmlt : st.m < 1200 := by omega
    rw [simLoop_succ, if_pos ⟨hb, hmlt⟩]
    have hm' : ((stepMonth inp st).2).m + n ≤ 1200 := by
      rw [stepMonth_snd_m]; omega
    simp [ih _ (hstep st hI hb hmlt) hm']

/-- Every emitted row has non-negative closing principal. -/
lemma simLoop_closing_nonneg (inp : LoanInput) (fuel : ℕ) (st : SimState) :
    ∀ r ∈ simLoop inp st fuel, 0 ≤ r.closingPrincipal :=
  simLoop_forall inp (fun _ => True) (fun r => 0 ≤ r.closingPrincipal)
    (fun st _ _ _ => ⟨stepMonth_closing_nonneg inp st, trivial⟩) fuel st trivial

lemma simLoop_head?_opening (inp : LoanInput) :
    ∀ (fuel : ℕ) (st : SimState) (r : MonthRow),
      (simLoop inp st fuel).head? = some r → r.openingPrincipal = st.bal := by
  intro fuel st r h
  cases fuel with
  | zero => simp [simLoop] at h
  | succ n =>
    by_cases hc : 0 < st.bal ∧ st.m < 1200
    · rw [simLoop_succ, if_pos hc] at h
      simp at h
      rw [← h, stepMonth_fst_opening]
    · rw [simLoop_succ, if_neg hc] at h
      simp at h

/-- Consecutive rows are chained: each row's closing principal is the next
row's opening principal, and a row followed by another has strictly positive
closing principal. -/
lemma simLoop_chain (inp : LoanInput) :
    ∀ (fuel : ℕ) (st : SimState),
      List.Chain'
        (fun a b => a.closingPrincipal = b.openingPrincipal ∧ 0 < a.closingPrincipal)
        (simLoop inp st fuel) := by
  intro fuel
  induction fuel with
  | zero => intro st; simp [simLoop]
  | succ n ih =>
    intro st
    rw [simLoop_succ]
    by_cases hc : 0 < st.bal ∧ st.m < 1200
    · rw [if_pos hc]
      refine List.chain'_cons'.mpr ⟨?_, ih _⟩
      intro b hb
      have hne : simLoop inp (stepMonth inp st).2 n ≠ [] := by
        intro hnil
        rw [hnil] at hb
        simp at hb
      have hbpos : 0 < ((stepMonth inp st).2).bal := simLoop_ne_nil_bal_pos hne
      have hopen : b.openingPrincipal = ((stepMonth inp st).2).bal := by
        apply simLoop_head?_opening inp n _ b
        cases hl : simLoop inp (stepMonth inp st).2 n with
        | nil => rw [hl] at hb; simp at hb
        | cons x xs =>
          rw [hl] at hb
          simp at hb
          simp [hb]
      constructor
      · rw [hopen, stepMonth_snd_bal]
      · rw [← stepMonth_snd_bal]; exact hbpos
    · rw [if_neg hc]; simp

/-- If the loop stops before exhausting its fuel (under the fuel/month-bound
pairing of `simulateLoan`), it stopped because the balance hit zero: the last
row's closing principal is 0. -/
lemma simLoop_getLast?_closing (inp : LoanInput) :
    ∀ (fuel : ℕ) (st : SimState) (r : MonthRow),
      st.m + fuel ≤ 1200 →
      (simLoop inp st fuel).length < fuel →
      (simLoop inp st fuel).getLast? = some r →
      r.closingPrincipal = 0 := by
  intro fuel
  induction fuel with
  | zero => intro st r _ hlen _; omega
  | succ n ih =>
    intro st r hm hlen hlast
    by_cases hc : 0 < st.bal ∧ st.m < 1200
    · rw [simLoop_succ, if_pos hc] at hlen hlast
      cases hrest : simLoop inp (stepMonth inp st).2 n with
      | nil =>
        rw [hrest] at hlen hlast
        simp at hlast hlen
        have hn : 0 < n := hlen
        obtain ⟨k, rfl⟩ : ∃ k, n = k + 1 := ⟨n - 1, by omega⟩
        have hm2 : ((stepMonth inp st).2).m < 1200 := by
          rw [stepMonth_snd_m]; omega
        by_cases hc2 : 0 < ((stepMonth inp st).2).bal ∧ ((stepMonth inp st).2).m < 1200
        · rw [simLoop_succ, if_pos hc2] at hrest
          exact absurd hrest (by simp)
        · have hb2 : ¬ 0 < ((stepMonth inp st).2).bal := fun hb => hc2 ⟨hb, hm2⟩
          have hnn := stepMonth_closing_nonneg inp st
          rw [← stepMonth_snd_bal] at hnn
          rw [← hlast]
          rw [← stepMonth_snd_bal]
          linarith [lt_or_eq_of_le hnn]
      | cons b bs =>
        rw [hrest] at hlast
        rw [List.getLast?_cons_cons] at hlast
        have hm' : ((stepMonth inp st).2).m + n ≤ 1200 := by
          rw [stepMonth_snd_m]; omega
        have hlen' : (simLoop inp (stepMonth inp st).2 n).length < n := by
          rw [hrest]
          rw [hrest] at hlen
          simp at hlen ⊢
          omega
        apply ih _ r hm' hlen'
        rw [hrest]
        exact hlast
    · rw [simLoop_succ, if_neg hc] at hlast
      simp at hlast

/-! ### Component reduction lemmas -/

lemma applyStepUp_none (su : StepUpConfig) (h : su.mode = StepUpMode.none)
    (m : ℕ) (e : ℚ) : applyStepUp su m e = (e, e) := by
  simp [applyStepUp, h]

lemma applyStepUp_monthly_add (su : StepUpConfig) (h1 : su.mode = StepUpMode.monthly_add)
    (h2 : 0 < su.value) (m : ℕ) (e : ℚ) :
    applyStepUp su m e = (e + su.value, e) := by
  simp [applyStepUp, h1, h2]

lemma computePrepay_zero (pp : PrepayConfig) (h1 : pp.oneTimeAmount = 0)
    (h2 : pp.recurringAnnualAmount = 0) (m : ℕ) : computePrepay pp m = 0 := by
  simp [computePrepay, h1, h2]

lemma min_zero_max_zero (a : ℚ) : min 0 (max 0 a) = 0 :=
  min_eq_left (le_max_left 0 a)

/-- Reduction of the loop body for a configuration with no step-up, no
prepayment and no savings offset. -/
lemma stepMonth_plain (inp : LoanInput) (st : SimState)
    (hod : inp.od.enabled = false) (hsu : inp.stepUp.mode = StepUpMode.none)
    (hp1 : inp.prepay.oneTimeAmount = 0) (hp2 : inp.prepay.recurringAnnualAmount = 0)
    (hbal : 0 < st.bal) :
    ((stepMonth inp st).1).interest = st.bal * (inp.annualRate / 1200) ∧
    ((stepMonth inp st).1).scheduledEmi =
      min st.schedEmi (st.bal + st.bal * (inp.annualRate / 1200)) ∧
    ((stepMonth inp st).1).principalPaid =
      max 0 (min st.schedEmi (st.bal + st.bal * (inp.annualRate / 1200)) -
        st.bal * (inp.annualRate / 1200)) ∧
    ((stepMonth inp st).1).prepayment = 0 ∧
    ((stepMonth inp st).1).closingPrincipal =
      max 0 (st.bal - max 0 (min st.schedEmi (st.bal + st.bal * (inp.annualRate / 1200)) -
        st.bal * (inp.annualRate / 1200))) ∧
    ((stepMonth inp st).2).schedEmi = st.schedEmi := by
  have hsu' := applyStepUp_none inp.stepUp hsu st.m st.schedEmi
  have hpp := computePrepay_zero inp.prepay hp1 hp2 st.m
  simp [stepMonth, hsu', hpp, hod, max_eq_right hbal.le, min_zero_max_zero]

/-- Plain configuration, payment strictly above this month's interest:
the closing principal strictly decreases (and stays non-negative). -/
lemma stepMonth_plain_decr (inp : LoanInput) (st : SimState)
    (hod : inp.od.enabled = false) (hsu : inp.stepUp.mode = StepUpMode.none)
    (hp1 : inp.prepay.oneTimeAmount = 0) (hp2 : inp.prepay.recurringAnnualAmount = 0)
    (hbal : 0 < st.bal)
    (hlt : st.bal * (inp.annualRate / 1200) < st.schedEmi) :
    ((stepMonth inp st).1).closingPrincipal < st.bal := by
  obtain ⟨-, -, -, -, hclose, -⟩ := stepMonth_plain inp st hod hsu hp1 hp2 hbal
  set i := st.bal * (inp.annualRate / 1200) with hi
  have hdue : i < min st.schedEmi (st.bal + i) := lt_min hlt (by linarith)
  have hpaid : max 0 (min st.schedEmi (st.bal + i) - i) =
      min st.schedEmi (st.bal + i) - i := max_eq_right (by linarith)
  rw [hclose, hpaid]
  have h1 : st.bal - (min st.schedEmi (st.bal + i) - i) < st.bal := by linarith
  exact max_lt hbal h1

/-- Plain configuration, payment at most this month's interest: no principal
is retired and the balance is unchanged. -/
lemma stepMonth_plain_stall (inp : LoanInput) (st : SimState)
    (hod : inp.od.enabled = false) (hsu : inp.stepUp.mode = StepUpMode.none)
    (hp1 : inp.prepay.oneTimeAmount = 0) (hp2 : inp.prepay.recurringAnnualAmount = 0)
    (hbal : 0 < st.bal)
    (hle : st.schedEmi ≤ st.bal * (inp.annualRate / 1200)) :
    ((stepMonth inp st).1).closingPrincipal = st.bal ∧
    ((stepMonth inp st).1).principalPaid = 0 := by
  obtain ⟨-, -, hpaid, -, hclose, -⟩ := stepMonth_plain inp st hod hsu hp1 hp2 hbal
  set i := st.bal * (inp.annualRate / 1200) with hi
  have hdue : min st.schedEmi (st.bal + i) - i ≤ 0 := by
    have : min st.schedEmi (st.bal + i) ≤ st.schedEmi := min_le_left _ _
    linarith
  have hpz : max 0 (min st.schedEmi (st.bal + i) - i) = 0 := max_eq_left hdue
  refine ⟨?_, by rw [hpaid, hpz]⟩
  rw [hclose, hpz]
  simpa using max_eq_right hbal.le

/-! ### Offset step lemmas -/

lemma stepMonth_eff_le (inp : LoanInput) (st : SimState)
    (he : inp.od.enabled = true) (hsav : 0 ≤ st.savings) (hbal : 0 < st.bal) :
    ((stepMonth inp st).1).effectivePrincipal ≤ st.bal := by
  simp [stepMonth, he]
  split_ifs with h
  · exact ⟨hbal.le, hsav⟩
  · exact ⟨hbal.le, le_max_left 0 _⟩

lemma stepMonth_savings_nonneg (inp : LoanInput) (st : SimState)
    (hsav : 0 ≤ st.savings) : 0 ≤ ((stepMonth inp st).2).savings := by
  simp [stepMonth]
  split_ifs <;>
    first
      | exact hsav
      | exact le_max_left 0 _
      | exact sub_nonneg.mpr (min_le_right _ _)

/-! ### Whole-simulation helper lemmas -/

lemma simulateLoan_chain (inp : LoanInput) :
    List.Chain'
      (fun a b => a.closingPrincipal = b.openingPrincipal ∧ 0 < a.closingPrincipal)
      (simulateLoan inp).rows := by
  rw [simulateLoan_rows]
  exact simLoop_chain inp 1200 _

lemma simulateLoan_last_closing (inp : LoanInput)
    (hlen : (simulateLoan inp).rows.length < 1200) :
    ∀ r, (simulateLoan inp).rows.getLast? = some r → r.closingPrincipal = 0 := by
  intro r hr
  rw [simulateLoan_rows] at hlen hr
  exact simLoop_getLast?_closing inp 1200 _ r (by norm_num) hlen hr

/-! ### Claims -/

/-- C9: for every simulation result and every pair of consecutive records
`i` and `i+1`, the `closingPrincipal` of record `i` equals the
`openingPrincipal` of record `i+1` (state continuity). -/
theorem C9_state_continuity (inp : LoanInput) :
    ∀ (i : ℕ) (h : i + 1 < (simulateLoan inp).rows.length),
      ((simulateLoan inp).rows.get ⟨i, Nat.lt_of_succ_lt h⟩).closingPrincipal =
        ((simulateLoan inp).rows.get ⟨i + 1, h⟩).openingPrincipal := by
  intro i h
  exact ((List.chain'_iff_get.mp (simulateLoan_chain inp)) i (by omega)).1

theorem C9_witness :
    ((simulateLoan cfgTwoMonths).rows.get ⟨0, by with_unfolding_all decide⟩).closingPrincipal =
      ((simulateLoan cfgTwoMonths).rows.get ⟨1, by with_unfolding_all decide⟩).openingPrincipal :=
  C9_state_continuity cfgTwoMonths 0 (by with_unfolding_all decide)

/-- C10: in every emitted record the `savingsBalance` field equals the
`closingSavings` field — both snapshot the savings value after the monthly
increment and after any periodic transfer of that month (the row is pushed
after the transfer has already been deducted). -/
theorem C10_savings_snapshot (inp : LoanInput) :
    ∀ (i : ℕ) (h : i < (simulateLoan inp).rows.length),
      ((simulateLoan inp).rows.get ⟨i, h⟩).savingsBalance =
        ((simulateLoan inp).rows.get ⟨i, h⟩).closingSavings := by
  intro i h
  have hall : ∀ r ∈ (simulateLoan inp).rows, r.savingsBalance = r.closingSavings := by
    rw [simulateLoan_rows]
    exact simLoop_forall inp (fun _ => True) _
      (fun st _ _ _ => ⟨stepMonth_savings_eq inp st, trivial⟩) 1200 _ trivial
  exact hall _ (List.get_mem _ i h)

theorem C10_witness :
    ((simulateLoan cfgOffset).rows.get ⟨0, by with_unfolding_all decide⟩).savingsBalance =
      ((simulateLoan cfgOffset).rows.get ⟨0, by with_unfolding_all decide⟩).closingSavings :=
  C10_savings_snapshot cfgOffset 0 (by with_unfolding_all decide)

/-- C4: for every configuration the simulation terminates with at most 1200
records; every record other than the last has strictly positive closing
principal (the sequence ends the instant the closing principal reaches 0);
and if fewer than 1200 records were emitted, the last record's closing
principal is exactly 0. -/
theorem C4_termination_cap (inp : LoanInput) :
    (simulateLoan inp).rows.length ≤ 1200 ∧
    (∀ (i : ℕ) (h : i + 1 < (simulateLoan inp).rows.length),
      0 < ((simulateLoan inp).rows.get ⟨i, Nat.lt_of_succ_lt h⟩).closingPrincipal) ∧
    ((simulateLoan inp).rows.length < 1200 →
      ∀ r, (simulateLoan inp).rows.getLast? = some r → r.closingPrincipal = 0) := by
  refine ⟨?_, ?_, simulateLoan_last_closing inp⟩
  · rw [simulateLoan_rows]
    exact simLoop_length_le inp 1200 _
  · intro i h
    exact ((List.chain'_iff_get.mp (simulateLoan_chain inp)) i (by omega)).2

theorem C4_witness :
    (simulateLoan cfgTwoMonths).rows.length ≤ 1200 ∧
    0 < ((simulateLoan cfgTwoMonths).rows.get ⟨0, by with_unfolding_all decide⟩).closingPrincipal ∧
    (⟨1, 1, 100, 0, 100, 0, 0, 100, 100, 0, 0, 0⟩ : MonthRow).closingPrincipal = 0 :=
  ⟨(C4_termination_cap cfgTwoMonths).1,
   (C4_termination_cap cfgTwoMonths).2.1 0 (by with_unfolding_all decide),
   (C4_termination_cap cfgTwoMonths).2.2 (by with_unfolding_all decide) _ (by with_unfolding_all decide)⟩

/-- C8: whenever the savings offset is enabled (with the data model's
non-negative starting balance), every record satisfies
`effectivePrincipal ≤ openingPrincipal`, and its interest equals
`effectivePrincipal` times the monthly rate — never the opening principal. -/
theorem C8_offset_bound (inp : LoanInput) (he : inp.od.enabled = true)
    (hs : 0 ≤ inp.od.startSavings) :
    ∀ (i : ℕ) (h : i < (simulateLoan inp).rows.length),
      ((simulateLoan inp).rows.get ⟨i, h⟩).effectivePrincipal ≤
        ((simulateLoan inp).rows.get ⟨i, h⟩).openingPrincipal ∧
      ((simulateLoan inp).rows.get ⟨i, h⟩).interest =
        ((simulateLoan inp).rows.get ⟨i, h⟩).effectivePrincipal *
          ((simulateLoan inp).rows.get ⟨i, h⟩).rateMonthly := by
  intro i h
  have hall : ∀ r ∈ (simulateLoan inp).rows,
      r.effectivePrincipal ≤ r.openingPrincipal ∧
      r.interest = r.effectivePrincipal * r.rateMonthly := by
    rw [simulateLoan_rows]
    refine simLoop_forall inp (fun st => 0 ≤ st.savings)
      (fun r => r.effectivePrincipal ≤ r.openingPrincipal ∧
        r.interest = r.effectivePrincipal * r.rateMonthly) ?_ 1200 _ ?_
    · intro st hI hbal _
      refine ⟨⟨?_, stepMonth_interest_eq inp st⟩, stepMonth_savings_nonneg inp st hI⟩
      rw [stepMonth_fst_opening inp st]
      exact stepMonth_eff_le inp st he hI hbal
    · simp [he, hs]
  exact hall _ (List.get_mem _ i h)

theorem C8_witness :
    cfgOffset.od.enabled = true ∧ (0 : ℚ) ≤ cfgOffset.od.startSavings ∧
    ((simulateLoan cfgOffset).rows.get ⟨0, by with_unfolding_all decide⟩).effectivePrincipal ≤
      ((simulateLoan cfgOffset).rows.get ⟨0, by with_unfolding_all decide⟩).openingPrincipal :=
  ⟨rfl, by with_unfolding_all decide, (C8_offset_bound cfgOffset rfl (by with_unfolding_all decide) 0 (by with_unfolding_all decide)).1⟩

/-- A non-positive balance stops the loop immediately. -/
lemma simLoop_bal_nonpos (inp : LoanInput) (st : SimState) (fuel : ℕ)
    (h : st.bal ≤ 0) : simLoop inp st fuel = [] := by
  cases fuel with
  | zero => rfl
  | succ n =>
    rw [simLoop_succ, if_neg]
    intro hc
    exact absurd hc.1 (not_lt.mpr h)

/-- C2 (amended): with `principal ≤ 0` the simulation yields an empty record
sequence with zero aggregates.  (The claim's `tenure ≤ 0` case does not
short-circuit when the principal is positive — see the counterexample.) -/
theorem C2_degenerate_empty (inp : LoanInput) (hP : inp.principal ≤ 0) :
    (simulateLoan inp).rows = [] ∧ (simulateLoan inp).totalInterest = 0 ∧
    (simulateLoan inp).totalPaid = 0 ∧ (simulateLoan inp).months = 0 := by
  have hrows : (simulateLoan inp).rows = [] := by
    rw [simulateLoan_rows]
    exact simLoop_bal_nonpos inp _ 1200 hP
  refine ⟨hrows, ?_, ?_, ?_⟩
  · rw [simulateLoan_totalInterest, hrows]; rfl
  · rw [simulateLoan_totalPaid, hrows]; rfl
  · rw [simulateLoan_months, hrows]; rfl

theorem C2_witness :
    inertInput.principal ≤ 0 ∧ (simulateLoan inertInput).rows = [] ∧
    (simulateLoan inertInput).months = 0 :=
  ⟨by norm_num [inertInput],
   (C2_degenerate_empty inertInput (by norm_num [inertInput])).1,
   (C2_degenerate_empty inertInput (by norm_num [inertInput])).2.2.2⟩

/-- C2 counterexample: `cfgZeroTenure` has tenure `0` and positive principal;
the annuity payment is 0, but the loop still runs — to the full 1200-month
safety cap — instead of returning an empty sequence. -/
theorem C2_counterexample :
    cfgZeroTenure.years * 12 + cfgZeroTenure.monthsExtra = 0 ∧
    (0 : ℚ) < cfgZeroTenure.principal ∧
    (simulateLoan cfgZeroTenure).months = 1200 := by
  refine ⟨rfl, by norm_num [cfgZeroTenure, inertInput], ?_⟩
  rw [simulateLoan_months, simulateLoan_rows]
  refine simLoop_length_eq cfgZeroTenure
    (fun st => st.bal = 1000 ∧ st.schedEmi = 0) ?_ ?_ 1200 _ ⟨?_, ?_⟩ ?_
  · intro st hI hb _
    obtain ⟨h1, h2⟩ := hI
    have hle : st.schedEmi ≤ st.bal * (cfgZeroTenure.annualRate / 1200) := by
      rw [h2]
      norm_num [cfgZeroTenure, inertInput]
    have hstall := stepMonth_plain_stall cfgZeroTenure st rfl rfl rfl rfl hb hle
    have hsched := (stepMonth_plain cfgZeroTenure st rfl rfl rfl rfl hb).2.2.2.2.2
    constructor
    · rw [stepMonth_snd_bal, hstall.1, h1]
    · rw [hsched, h2]
  · intro st hI
    rw [hI.1]
    norm_num
  · norm_num [cfgZeroTenure, inertInput]
  · show emi cfgZeroTenure.principal (cfgZeroTenure.annualRate / 1200)
      (cfgZeroTenure.years * 12 + cfgZeroTenure.monthsExtra) = 0
    norm_num [emi, cfgZeroTenure, inertInput]
  · norm_num

/-- C5 (amended): with no step-up, no prepayment and no offset, a positive
principal, and a scheduled payment at most the first month's interest, the
simulation runs to exactly 1200 records and the last record's closing
principal is still positive. -/
theorem C5_safety_cap (inp : LoanInput) (hP : 0 < inp.principal)
    (hod : inp.od.enabled = false) (hsu : inp.stepUp.mode = StepUpMode.none)
    (hp1 : inp.prepay.oneTimeAmount = 0) (hp2 : inp.prepay.recurringAnnualAmount = 0)
    (hemi : emi inp.principal (inp.annualRate / 1200) (inp.years * 12 + inp.monthsExtra) ≤
      inp.principal * (inp.annualRate / 1200)) :
    (simulateLoan inp).months = 1200 ∧
    (∀ r, (simulateLoan inp).rows.getLast? = some r → 0 < r.closingPrincipal) := by
  have hstep : ∀ st, (st.bal = inp.principal ∧
      st.schedEmi = emi inp.principal (inp.annualRate / 1200)
        (inp.years * 12 + inp.monthsExtra)) → 0 < st.bal →
      ((stepMonth inp st).1).closingPrincipal = inp.principal ∧
      ((stepMonth inp st).2).bal = inp.principal ∧
      ((stepMonth inp st).2).schedEmi =
        emi inp.principal (inp.annualRate / 1200) (inp.years * 12 + inp.monthsExtra) := by
    intro st hI hb
    obtain ⟨h1, h2⟩ := hI
    have hle : st.schedEmi ≤ st.bal * (inp.annualRate / 1200) := by
      rw [h2, h1]; exact hemi
    have hstall := stepMonth_plain_stall inp st hod hsu hp1 hp2 hb hle
    have hsched := (stepMonth_plain inp st hod hsu hp1 hp2 hb).2.2.2.2.2
    exact ⟨hstall.1.trans h1, (stepMonth_snd_bal inp st).trans (hstall.1.trans h1),
      hsched.trans h2⟩
  constructor
  · rw [simulateLoan_months, simulateLoan_rows]
    refine simLoop_length_eq inp
      (fun st => st.bal = inp.principal ∧
        st.schedEmi = emi inp.principal (inp.annualRate / 1200)
          (inp.years * 12 + inp.monthsExtra)) ?_ ?_ 1200 _ ⟨rfl, rfl⟩ ?_
    · intro st hI hb _
      exact ⟨(hstep st hI hb).2.1, (hstep st hI hb).2.2⟩
    · intro st hI
      rw [hI.1]; exact hP
    · norm_num
  · intro r hr
    have hall : ∀ r ∈ (simulateLoan inp).rows, r.closingPrincipal = inp.principal := by
      rw [simulateLoan_rows]
      refine simLoop_forall inp
        (fun st => st.bal = inp.principal ∧
          st.schedEmi = emi inp.principal (inp.annualRate / 1200)
            (inp.years * 12 + inp.monthsExtra))
        (fun r => r.closingPrincipal = inp.principal) ?_ 1200 _ ⟨rfl, rfl⟩
      intro st hI hb _
      exact ⟨(hstep st hI hb).1, (hstep st hI hb).2.1, (hstep st hI hb).2.2⟩
    rw [hall r (List.mem_of_getLast?_eq_some hr)]
    exact hP

theorem C5_witness :
    emi cfgCapped.principal (cfgCapped.annualRate / 1200)
        (cfgCapped.years * 12 + cfgCapped.monthsExtra) ≤
      cfgCapped.principal * (cfgCapped.annualRate / 1200) ∧
    (simulateLoan cfgCapped).months = 1200 :=
  ⟨by norm_num [emi, cfgCapped, inertInput],
   (C5_safety_cap cfgCapped (by norm_num [cfgCapped, inertInput]) rfl rfl rfl rfl
      (by norm_num [emi, cfgCapped, inertInput])).1⟩

/-- C5 counterexample: `cfgCappedPrepaid` has scheduled payment `0`, at most
the first month's interest (`0`), yet a one-time prepayment clears the loan
in month 0, so only one record is emitted — not 1200. -/
theorem C5_counterexample :
    emi cfgCappedPrepaid.principal (cfgCappedPrepaid.annualRate / 1200)
        (cfgCappedPrepaid.years * 12 + cfgCappedPrepaid.monthsExtra) ≤
      cfgCappedPrepaid.principal * (cfgCappedPrepaid.annualRate / 1200) ∧
    (simulateLoan cfgCappedPrepaid).months = 1 := by
  constructor
  · norm_num [emi, cfgCappedPrepaid, inertInput]
  · with_unfolding_all decide

/-- C7: for a zero annual rate with positive principal and tenure, the
annuity calculator returns exactly `principal / tenureMonths`, and the
simulation accrues zero total interest. -/
theorem C7_zero_rate (inp : LoanInput) (hP : 0 < inp.principal)
    (hN : 0 < inp.years * 12 + inp.monthsExtra) (hr : inp.annualRate = 0) :
    emi inp.principal (inp.annualRate / 1200) (inp.years * 12 + inp.monthsExtra) =
      inp.principal / ((inp.years * 12 + inp.monthsExtra : ℕ) : ℚ) ∧
    (simulateLoan inp).totalInterest = 0 := by
  have hr' : inp.annualRate / 1200 = 0 := by rw [hr]; norm_num
  have hN' : inp.years * 12 + inp.monthsExtra ≠ 0 := Nat.pos_iff_ne_zero.mp hN
  constructor
  · simp [emi, hr', hP.not_le, hN']
  · have hall : ∀ r ∈ (simulateLoan inp).rows, r.interest = 0 := by
      rw [simulateLoan_rows]
      refine simLoop_forall inp (fun _ => True) (fun r => r.interest = 0)
        ?_ 1200 _ trivial
      intro st _ _ _
      refine ⟨?_, trivial⟩
      simp [stepMonth, hr']
    rw [simulateLoan_totalInterest]
    apply List.sum_eq_zero
    intro x hx
    obtain ⟨r, hrm, rfl⟩ := List.mem_map.mp hx
    exact hall r hrm

theorem C7_witness :
    (0 : ℚ) < cfgZeroRate.principal ∧ cfgZeroRate.annualRate = 0 ∧
    emi cfgZeroRate.principal (cfgZeroRate.annualRate / 1200)
        (cfgZeroRate.years * 12 + cfgZeroRate.monthsExtra) =
      cfgZeroRate.principal / ((cfgZeroRate.years * 12 + cfgZeroRate.monthsExtra : ℕ) : ℚ) ∧
    (simulateLoan cfgZeroRate).totalInterest = 0 :=
  ⟨by norm_num [cfgZeroRate, inertInput], rfl,
   (C7_zero_rate cfgZeroRate (by norm_num [cfgZeroRate, inertInput])
      (by norm_num [cfgZeroRate, inertInput]) rfl).1,
   (C7_zero_rate cfgZeroRate (by norm_num [cfgZeroRate, inertInput])
      (by norm_num [cfgZeroRate, inertInput]) rfl).2⟩

/-- Loop body under `monthly_add` step-up: the month's due payment uses the
incremented amount, and the incremented amount is written back into the
persisted scheduled payment. -/
lemma stepMonth_monthly_add (inp : LoanInput) (st : SimState)
    (hmode : inp.stepUp.mode = StepUpMode.monthly_add) (hv : 0 < inp.stepUp.value) :
    ((stepMonth inp st).1).scheduledEmi =
      min (st.schedEmi + inp.stepUp.value) (st.bal + ((stepMonth inp st).1).interest) ∧
    ((stepMonth inp st).2).schedEmi = st.schedEmi + inp.stepUp.value := by
  have h := applyStepUp_monthly_add inp.stepUp hmode hv st.m st.schedEmi
  simp [stepMonth, h]

/-- C1 (amended): under `monthly_add` the step-up closure itself returns
`cur + v` without touching the persisted value, but the orchestrator writes
the returned value back (`schedEmi = applyStepUp(m)`), so the add-on
accumulates: the month with index `m` resolves a scheduled payment of
`baseEmi + (m+1)·v` (then capped by the final-month due rule), not a flat
`baseEmi + v`. -/
theorem C1_monthly_add (inp : LoanInput)
    (hmode : inp.stepUp.mode = StepUpMode.monthly_add) (hv : 0 < inp.stepUp.value) :
    (∀ (m : ℕ) (e : ℚ), applyStepUp inp.stepUp m e = (e + inp.stepUp.value, e)) ∧
    (∀ (i : ℕ) (h : i < (simulateLoan inp).rows.length),
      ((simulateLoan inp).rows.get ⟨i, h⟩).scheduledEmi =
        min (emi inp.principal (inp.annualRate / 1200)
              (inp.years * 12 + inp.monthsExtra) +
              ((((simulateLoan inp).rows.get ⟨i, h⟩).monthIndex : ℚ) + 1) *
                inp.stepUp.value)
          (((simulateLoan inp).rows.get ⟨i, h⟩).openingPrincipal +
            ((simulateLoan inp).rows.get ⟨i, h⟩).interest)) := by
  refine ⟨fun m e => applyStepUp_monthly_add inp.stepUp hmode hv m e, ?_⟩
  intro i h
  have hall : ∀ r ∈ (simulateLoan inp).rows,
      r.scheduledEmi =
        min (emi inp.principal (inp.annualRate / 1200)
              (inp.years * 12 + inp.monthsExtra) +
              ((r.monthIndex : ℚ) + 1) * inp.stepUp.value)
          (r.openingPrincipal + r.interest) := by
    rw [simulateLoan_rows]
    refine simLoop_forall inp
      (fun st => st.schedEmi =
        emi inp.principal (inp.annualRate / 1200) (inp.years * 12 + inp.monthsExtra) +
          (st.m : ℚ) * inp.stepUp.value)
      (fun r => r.scheduledEmi =
        min (emi inp.principal (inp.annualRate / 1200)
              (inp.years * 12 + inp.monthsExtra) +
              ((r.monthIndex : ℚ) + 1) * inp.stepUp.value)
          (r.openingPrincipal + r.interest)) ?_ 1200 _ ?_
    · intro st hI _ _
      dsimp only
      obtain ⟨hdue, hnext⟩ := stepMonth_monthly_add inp st hmode hv
      constructor
      · rw [hdue, stepMonth_fst_monthIndex, stepMonth_fst_opening, hI]
        ring_nf
      · rw [hnext, stepMonth_snd_m, hI]
        push_cast
        ring
    · show emi inp.principal (inp.annualRate / 1200) (inp.years * 12 + inp.monthsExtra) =
        emi inp.principal (inp.annualRate / 1200) (inp.years * 12 + inp.monthsExtra) +
          ((0 : ℕ) : ℚ) * inp.stepUp.value
      push_cast
      ring
  exact hall _ (List.get_mem _ i h)

/-- C1 counterexample: for `cfgMonthlyAdd` the claim predicts every month's
resolved scheduled payment is `baseEmi + v = 110`; the simulation instead
resolves 110, 120, … (the add-on accumulates month over month). -/
theorem C1_counterexample :
    emi cfgMonthlyAdd.principal (cfgMonthlyAdd.annualRate / 1200)
        (cfgMonthlyAdd.years * 12 + cfgMonthlyAdd.monthsExtra) +
      cfgMonthlyAdd.stepUp.value = 110 ∧
    ((simulateLoan cfgMonthlyAdd).rows.map (fun r => r.scheduledEmi)).take 2 =
      [110, 120] := by
  constructor
  · norm_num [emi, cfgMonthlyAdd, inertInput]
  · with_unfolding_all decide

theorem C1_witness :
    cfgMonthlyAdd.stepUp.mode = StepUpMode.monthly_add ∧
    (0 : ℚ) < cfgMonthlyAdd.stepUp.value ∧
    ((simulateLoan cfgMonthlyAdd).rows.get ⟨1, by with_unfolding_all decide⟩).scheduledEmi =
      min (emi cfgMonthlyAdd.principal (cfgMonthlyAdd.annualRate / 1200)
            (cfgMonthlyAdd.years * 12 + cfgMonthlyAdd.monthsExtra) +
            ((((simulateLoan cfgMonthlyAdd).rows.get
                ⟨1, by with_unfolding_all decide⟩).monthIndex : ℚ) + 1) *
              cfgMonthlyAdd.stepUp.value)
        (((simulateLoan cfgMonthlyAdd).rows.get
            ⟨1, by with_unfolding_all decide⟩).openingPrincipal +
          ((simulateLoan cfgMonthlyAdd).rows.get
            ⟨1, by with_unfolding_all decide⟩).interest) :=
  ⟨rfl, by norm_num [cfgMonthlyAdd, inertInput],
   (C1_monthly_add cfgMonthlyAdd rfl (by norm_num [cfgMonthlyAdd, inertInput])).2 1
     (by with_unfolding_all decide)⟩

/-- Loop body with the savings offset disabled: the emitted prepayment is the
prepay-policy amount for the month, capped at the principal remaining after
the scheduled principal portion. -/
lemma stepMonth_prepay_cap (inp : LoanInput) (st : SimState)
    (hod : inp.od.enabled = false) :
    ((stepMonth inp st).1).prepayment =
      min (computePrepay inp.prepay st.m)
        (max 0 (st.bal - ((stepMonth inp st).1).principalPaid)) := by
  simp [stepMonth, hod]

/-- C3 (amended): the one-time amount enters the prepayment computation in
exactly the configured month (summing with the recurring rule when both
fire); with the offset disabled, each record's `prepayment` equals that
policy amount capped at `max 0 (openingPrincipal − principalPaid)`.  The
configured amount therefore contributes to no other record, but it appears
uncapped only when its month is simulated and the cap does not bind (see the
counterexample). -/
theorem C3_prepay_locality (inp : LoanInput) (hod : inp.od.enabled = false) :
    (∀ m : ℕ, m ≠ inp.prepay.oneTimeMonth →
      computePrepay inp.prepay m =
        (if inp.prepay.recurringAnnualAmount > 0 ∧ m > 0 ∧ m % 12 = 0 then
          inp.prepay.recurringAnnualAmount else 0)) ∧
    (computePrepay inp.prepay inp.prepay.oneTimeMonth =
      (if 0 < inp.prepay.oneTimeAmount then inp.prepay.oneTimeAmount else 0) +
      (if inp.prepay.recurringAnnualAmount > 0 ∧ inp.prepay.oneTimeMonth > 0 ∧
          inp.prepay.oneTimeMonth % 12 = 0 then
        inp.prepay.recurringAnnualAmount else 0)) ∧
    (∀ (i : ℕ) (h : i < (simulateLoan inp).rows.length),
      ((simulateLoan inp).rows.get ⟨i, h⟩).prepayment =
        min (computePrepay inp.prepay
              (((simulateLoan inp).rows.get ⟨i, h⟩).monthIndex))
          (max 0 (((simulateLoan inp).rows.get ⟨i, h⟩).openingPrincipal -
            ((simulateLoan inp).rows.get ⟨i, h⟩).principalPaid))) := by
  refine ⟨?_, ?_, ?_⟩
  · intro m hm
    simp [computePrepay, hm]
  · simp [computePrepay]
  · intro i h
    have hall : ∀ r ∈ (simulateLoan inp).rows,
        r.prepayment =
          min (computePrepay inp.prepay r.monthIndex)
            (max 0 (r.openingPrincipal - r.principalPaid)) := by
      rw [simulateLoan_rows]
      refine simLoop_forall inp (fun _ => True)
        (fun r => r.prepayment =
          min (computePrepay inp.prepay r.monthIndex)
            (max 0 (r.openingPrincipal - r.principalPaid))) ?_ 1200 _ trivial
      intro st _ _ _
      dsimp only
      refine ⟨?_, trivial⟩
      rw [stepMonth_fst_monthIndex, stepMonth_fst_opening]
      exact stepMonth_prepay_cap inp st hod
    exact hall _ (List.get_mem _ i h)

/-- C3 counterexample: `cfgLatePrepay` configures a positive one-time
prepayment (50 at month 5), but the loan pays off in month 0, so the amount
appears in the `prepayment` field of no emitted record at all. -/
theorem C3_counterexample :
    (0 : ℚ) < cfgLatePrepay.prepay.oneTimeAmount ∧
    ((simulateLoan cfgLatePrepay).rows.map (fun r => r.prepayment)) = [0] := by
  constructor
  · norm_num [cfgLatePrepay, inertInput]
  · with_unfolding_all decide

theorem C3_witness :
    cfgMidPrepay.od.enabled = false ∧
    ((simulateLoan cfgMidPrepay).rows.get
        ⟨1, by with_unfolding_all decide⟩).prepayment =
      min (computePrepay cfgMidPrepay.prepay
            (((simulateLoan cfgMidPrepay).rows.get
              ⟨1, by with_unfolding_all decide⟩).monthIndex))
        (max 0 (((simulateLoan cfgMidPrepay).rows.get
            ⟨1, by with_unfolding_all decide⟩).openingPrincipal -
          ((simulateLoan cfgMidPrepay).rows.get
            ⟨1, by with_unfolding_all decide⟩).principalPaid)) :=
  ⟨rfl, (C3_prepay_locality cfgMidPrepay rfl).2.2 1 (by with_unfolding_all decide)⟩

/-- C6 (amended): with no step-up, no prepayment, no offset, a non-negative
rate, and a payment strictly above the first month's interest, the closing
principal strictly decreases from record to record and never goes negative;
the final record closes at exactly 0 unless the 1200-month safety cap is
reached first (which happens when the tenure exceeds 1200 months — see the
counterexample). -/
theorem C6_convergence (inp : LoanInput)
    (hr : 0 ≤ inp.annualRate)
    (hod : inp.od.enabled = false) (hsu : inp.stepUp.mode = StepUpMode.none)
    (hp1 : inp.prepay.oneTimeAmount = 0) (hp2 : inp.prepay.recurringAnnualAmount = 0)
    (hemi : inp.principal * (inp.annualRate / 1200) <
      emi inp.principal (inp.annualRate / 1200) (inp.years * 12 + inp.monthsExtra)) :
    (∀ (i : ℕ) (h : i + 1 < (simulateLoan inp).rows.length),
      ((simulateLoan inp).rows.get ⟨i + 1, h⟩).closingPrincipal <
        ((simulateLoan inp).rows.get ⟨i, Nat.lt_of_succ_lt h⟩).closingPrincipal) ∧
    (∀ (i : ℕ) (h : i < (simulateLoan inp).rows.length),
      0 ≤ ((simulateLoan inp).rows.get ⟨i, h⟩).closingPrincipal) ∧
    (∀ r, (simulateLoan inp).rows.getLast? = some r →
      r.closingPrincipal = 0 ∨ (simulateLoan inp).rows.length = 1200) := by
  have hallDecr : ∀ r ∈ (simulateLoan inp).rows,
      r.closingPrincipal < r.openingPrincipal := by
    rw [simulateLoan_rows]
    refine simLoop_forall inp
      (fun st => st.bal ≤ inp.principal ∧
        st.schedEmi = emi inp.principal (inp.annualRate / 1200)
          (inp.years * 12 + inp.monthsExtra))
      (fun r => r.closingPrincipal < r.openingPrincipal) ?_ 1200 _ ⟨le_refl _, rfl⟩
    intro st hI hb _
    dsimp only
    have hrM : 0 ≤ inp.annualRate / 1200 := by positivity
    have hlt : st.bal * (inp.annualRate / 1200) < st.schedEmi := by
      calc st.bal * (inp.annualRate / 1200)
          ≤ inp.principal * (inp.annualRate / 1200) :=
            mul_le_mul_of_nonneg_right hI.1 hrM
        _ < _ := hI.2 ▸ hemi
    have hdecr := stepMonth_plain_decr inp st hod hsu hp1 hp2 hb hlt
    refine ⟨?_, ?_, ?_⟩
    · rw [stepMonth_fst_opening]; exact hdecr
    · rw [stepMonth_snd_bal]
      exact le_trans hdecr.le hI.1
    · rw [(stepMonth_plain inp st hod hsu hp1 hp2 hb).2.2.2.2.2]
      exact hI.2
  refine ⟨?_, ?_, ?_⟩
  · intro i h
    have h2 := ((List.chain'_iff_get.mp (simulateLoan_chain inp)) i (by omega)).1
    have h3 := hallDecr _ (List.get_mem _ (i + 1) h)
    exact h3.trans_eq h2.symm
  · intro i h
    have hall2 : ∀ r ∈ (simulateLoan inp).rows, 0 ≤ r.closingPrincipal := by
      rw [simulateLoan_rows]
      exact simLoop_closing_nonneg inp 1200 _
    exact hall2 _ (List.get_mem _ i h)
  · intro r hr
    by_cases hlen : (simulateLoan inp).rows.length = 1200
    · exact Or.inr hlen
    · have hle : (simulateLoan inp).rows.length ≤ 1200 := by
        rw [simulateLoan_rows]; exact simLoop_length_le inp 1200 _
      exact Or.inl (simulateLoan_last_closing inp (by omega) r hr)

/-- C6 counterexample: `cfgLong` satisfies the claim's hypotheses (no
policies, payment 1 strictly above the zero first-month interest), but its
2400-month straight-line tenure exceeds the 1200-month cap, so the sequence
stops at 1200 records with the final closing principal still positive — it
never reaches 0. -/
theorem C6_counterexample :
    cfgLong.principal * (cfgLong.annualRate / 1200) <
      emi cfgLong.principal (cfgLong.annualRate / 1200)
        (cfgLong.years * 12 + cfgLong.monthsExtra) ∧
    (simulateLoan cfgLong).rows.length = 1200 ∧
    ((simulateLoan cfgLong).rows.map (fun r => r.closingPrincipal)).getLast? ≠
      some 0 := by
  have hr0 : cfgLong.annualRate / 1200 = 0 := by norm_num [cfgLong, inertInput]
  have hstep : ∀ st : SimState,
      (st.bal = 2400 - (st.m : ℚ) ∧ st.schedEmi = 1 ∧ st.m ≤ 1200) →
      0 < st.bal → st.m < 1200 →
      (((stepMonth cfgLong st).1).closingPrincipal = st.bal - 1 ∧
        0 < ((stepMonth cfgLong st).1).closingPrincipal) ∧
      (((stepMonth cfgLong st).2).bal = 2400 - (((stepMonth cfgLong st).2).m : ℚ) ∧
        ((stepMonth cfgLong st).2).schedEmi = 1 ∧
        ((stepMonth cfgLong st).2).m ≤ 1200) := by
    intro st hI hb hm
    obtain ⟨h1, h2, _⟩ := hI
    have hmq : (st.m : ℚ) ≤ 1199 := by exact_mod_cast Nat.lt_succ_iff.mp hm
    have hbge : (1 : ℚ) ≤ st.bal := by rw [h1]; linarith
    obtain ⟨-, -, -, -, hclose, hsched⟩ :=
      stepMonth_plain cfgLong st rfl rfl rfl rfl hb
    rw [hr0] at hclose
    simp only [mul_zero, add_zero, sub_zero] at hclose
    rw [h2, min_eq_left hbge] at hclose
    have hmax1 : max (0 : ℚ) 1 = 1 := by norm_num
    rw [hmax1, max_eq_right (by linarith)] at hclose
    refine ⟨⟨hclose, by rw [hclose, h1]; linarith⟩, ?_, ?_, ?_⟩
    · rw [stepMonth_snd_bal, hclose, h1, stepMonth_snd_m]
      push_cast
      ring
    · rw [hsched, h2]
    · rw [stepMonth_snd_m]; omega
  refine ⟨by norm_num [emi, cfgLong, inertInput], ?_, ?_⟩
  · rw [simulateLoan_rows]
    refine simLoop_length_eq cfgLong
      (fun st => st.bal = 2400 - (st.m : ℚ) ∧ st.schedEmi = 1 ∧ st.m ≤ 1200)
      (fun st hI hb hm => (hstep st hI hb hm).2) ?_ 1200 _ ⟨?_, ?_, ?_⟩ ?_
    · intro st hI
      rw [hI.1]
      have : (st.m : ℚ) ≤ 1200 := by exact_mod_cast hI.2.2
      linarith
    · show cfgLong.principal = 2400 - ((0 : ℕ) : ℚ)
      norm_num [cfgLong, inertInput]
    · show emi cfgLong.principal (cfgLong.annualRate / 1200)
        (cfgLong.years * 12 + cfgLong.monthsExtra) = 1
      norm_num [emi, cfgLong, inertInput]
    · norm_num
    · norm_num
  · have hall : ∀ r ∈ (simulateLoan cfgLong).rows, 0 < r.closingPrincipal := by
      rw [simulateLoan_rows]
      refine simLoop_forall cfgLong
        (fun st => st.bal = 2400 - (st.m : ℚ) ∧ st.schedEmi = 1 ∧ st.m ≤ 1200)
        (fun r => 0 < r.closingPrincipal)
        (fun st hI hb hm => ⟨(hstep st hI hb hm).1.2, (hstep st hI hb hm).2⟩)
        1200 _ ⟨?_, ?_, ?_⟩
      · show cfgLong.principal = 2400 - ((0 : ℕ) : ℚ)
        norm_num [cfgLong, inertInput]
      · show emi cfgLong.principal (cfgLong.annualRate / 1200)
          (cfgLong.years * 12 + cfgLong.monthsExtra) = 1
        norm_num [emi, cfgLong, inertInput]
      · norm_num
    intro hsome
    have hmem : (0 : ℚ) ∈ (simulateLoan cfgLong).rows.map (fun r => r.closingPrincipal) :=
      List.mem_of_getLast?_eq_some hsome
    obtain ⟨r, hrm, h0⟩ := List.mem_map.mp hmem
    exact absurd h0 (ne_of_gt (hall r hrm))

theorem C6_witness :
    (0 : ℚ) ≤ cfgTwoMonths.annualRate ∧
    cfgTwoMonths.principal * (cfgTwoMonths.annualRate / 1200) <
      emi cfgTwoMonths.principal (cfgTwoMonths.annualRate / 1200)
        (cfgTwoMonths.years * 12 + cfgTwoMonths.monthsExtra) ∧
    ((simulateLoan cfgTwoMonths).rows.get
        ⟨1, by with_unfolding_all decide⟩).closingPrincipal <
      ((simulateLoan cfgTwoMonths).rows.get
        ⟨0, by with_unfolding_all decide⟩).closingPrincipal ∧
    ((⟨1, 1, 100, 0, 100, 0, 0, 100, 100, 0, 0, 0⟩ : MonthRow).closingPrincipal = 0 ∨
      (simulateLoan cfgTwoMonths).rows.length = 1200) :=
  ⟨by norm_num [cfgTwoMonths, inertInput],
   by norm_num [emi, cfgTwoMonths, inertInput],
   (C6_convergence cfgTwoMonths
      (by norm_num [cfgTwoMonths, inertInput]) rfl rfl rfl rfl
      (by norm_num [emi, cfgTwoMonths, inertInput])).1 0
     (by with_unfolding_all decide),
   (C6_convergence cfgTwoMonths
      (by norm_num [cfgTwoMonths, inertInput]) rfl rfl rfl rfl
      (by norm_num [emi, cfgTwoMonths, inertInput])).2.2 _
     (by with_unfolding_all decide)⟩

end HomeLoanComparison
